import Mathlib

/-!
Verification of the DC Audit Report data pipeline (`app.py`).

The development shallowly embeds the core pipeline of the application:
  * `extract_brand_from_product` — brand derivation from a product name,
  * `safe_numeric` — total numeric coercion of a quantity cell,
  * `validate_required_columns` — required-column / emptiness validation,
  * `process_packages_to_audit` — group / sum / round / sort aggregation,
  * `applyFilters` — the category/brand filtering of `main`,
  * `generate_audit_pdf` — the element structure of the rendered document.

Table cells read from a CSV are modelled as `Option String` (a missing
cell, pandas `NaN`, is `none`); the quantity cell additionally allows an
already-numeric value (`CellValue`).  Quantities are modelled as `ℚ`;
pandas `Series.round` is round-half-to-even (`roundHalfEven`).
-/

/-- A cell of the `Available Quantity` column: missing (`NaN`), an
already-numeric value, or raw text that may or may not parse. -/
inductive CellValue where
  | na : CellValue
  | num (q : ℚ) : CellValue
  | str (s : String) : CellValue
deriving DecidableEq, Repr

/-- Numeric value of a list of decimal digit characters (most significant
first), as accumulated by a standard positional fold. -/
def digitsVal (ds : List Char) : ℕ :=
  ds.foldl (fun acc c => acc * 10 + (c.toNat - '0'.toNat)) 0

/-- Python `str.strip()`: drop whitespace from both ends. -/
def trimChars (cs : List Char) : List Char :=
  ((cs.dropWhile Char.isWhitespace).reverse.dropWhile Char.isWhitespace).reverse

/-- Python `delim in s`: does `delim` occur as a contiguous run? -/
def containsDelim (delim : List Char) : List Char → Bool
  | [] => delim.isEmpty
  | c :: cs => delim.isPrefixOf (c :: cs) || containsDelim delim cs

/-- Python `s.split(delim)[0]`: the text before the first occurrence of
`delim` (the whole text when `delim` does not occur). -/
def beforeDelim (delim : List Char) : List Char → List Char
  | [] => []
  | c :: cs => if delim.isPrefixOf (c :: cs) then [] else c :: beforeDelim delim cs

/-- Models Python `float(str)` on finite decimal literals: optional
surrounding whitespace, an optional sign, digits with an optional single
decimal point (at least one digit overall).  Exponent/`inf`/`nan` forms,
which never occur in the data that the claims exercise, are out of scope
and simply fail to parse. -/
def parseDecimal (s : String) : Option ℚ :=
  let cs := trimChars s.data
  let sgnRest : ℚ × List Char :=
    match cs with
    | '+' :: t => (1, t)
    | '-' :: t => (-1, t)
    | t => (1, t)
  let intPart := sgnRest.2.takeWhile (· ≠ '.')
  let fracPart := (sgnRest.2.dropWhile (· ≠ '.')).drop 1
  if intPart.all (·.isDigit) && fracPart.all (·.isDigit)
      && (!intPart.isEmpty || !fracPart.isEmpty) then
    some (sgnRest.1 * ((digitsVal intPart : ℚ)
      + (digitsVal fracPart : ℚ) / (10 : ℚ) ^ fracPart.length))
  else
    none

/-- `safe_numeric` from `app.py`: convert a cell to a number, returning
`default` when the cell is missing (`pd.notna` fails) or conversion
raises.  Total by construction. -/
def safe_numeric (value : CellValue) (default : ℚ) : ℚ :=
  match value with
  | .na => default
  | .num q => q
  | .str s => (parseDecimal s).getD default

/-- `extract_brand_from_product` from `app.py`: the trimmed text before
the first occurrence of `" - "` in the trimmed product name, or
`"Unknown"` when the cell is missing, the delimiter is absent, or the
trimmed prefix is empty. -/
def extract_brand_from_product (productName : Option String) : String :=
  match productName with
  | none => "Unknown"
  | some p =>
    let nameStr := trimChars p.data
    if containsDelim (" - ".data) nameStr then
      let brand := trimChars (beforeDelim (" - ".data) nameStr)
      if brand = [] then "Unknown" else String.mk brand
    else
      "Unknown"

/-! ### Ordering of key components

pandas sorts string columns by case-sensitive lexicographic comparison and
places missing values (`NaN`) last (`na_position='last'`, and `groupby`
with `sort=True, dropna=False` likewise puts the `NaN` group last). -/

/-- Strict order on an optional string cell: present values compare as
strings, a missing value is greater than every present value. -/
def optLT (a b : Option String) : Prop :=
  match a, b with
  | some x, some y => x < y
  | some _, none => True
  | none, _ => False

/-- Non-strict order on an optional string cell (missing last). -/
def optLE (a b : Option String) : Prop :=
  match a, b with
  | _, none => True
  | none, some _ => False
  | some x, some y => x ≤ y

instance : DecidableRel optLT := fun a b =>
  match a, b with
  | some x, some y => inferInstanceAs (Decidable (x < y))
  | some _, none => .isTrue trivial
  | none, none => .isFalse fun h => h
  | none, some _ => .isFalse fun h => h

instance : DecidableRel optLE := fun a b =>
  match a, b with
  | some _, none => .isTrue trivial
  | none, none => .isTrue trivial
  | none, some _ => .isFalse fun h => h
  | some x, some y => inferInstanceAs (Decidable (x ≤ y))

/-- Lexicographic combination: strictly smaller on the first component, or
equal there and related by `r` on the rest. -/
def lexLE {α β : Type} (lt : α → α → Prop) (r : β → β → Prop) (a b : α × β) : Prop :=
  lt a.1 b.1 ∨ (a.1 = b.1 ∧ r a.2 b.2)

instance {α β : Type} (lt : α → α → Prop) (r : β → β → Prop) [DecidableEq α]
    [DecidableRel lt] [DecidableRel r] : DecidableRel (lexLE lt r) := fun a b => by
  unfold lexLE; infer_instance

/-- The grouping / sorting key of `process_packages_to_audit`, in column
order `['Category', 'Brand', 'Distru Product', 'Distru Batch Number']`.
`Brand` is always a present string (`extract_brand_from_product` is
total); the other three are raw cells that may be missing. -/
def AuditKey : Type := Option String × String × Option String × Option String

instance : DecidableEq AuditKey :=
  inferInstanceAs (DecidableEq (Option String × String × Option String × Option String))

/-- Ascending lexicographic order on audit keys, missing values last:
the order of `sort_values(['Category', 'Brand', 'Distru Product',
'Distru Batch Number'])`. -/
def keyLE : AuditKey → AuditKey → Prop :=
  lexLE optLT (lexLE (· < · : String → String → Prop) (lexLE optLT optLE))

instance : DecidableRel keyLE := fun a b => by
  unfold keyLE; infer_instance

/-! ### Aggregation (`process_packages_to_audit`) -/

/-- numpy/pandas `round` (as used by `Series.round()`): round half to
even.  `⌊q⌋` when the fractional part is below a half, `⌊q⌋ + 1` when
above, and the even neighbour at exactly a half. -/
def roundHalfEven (q : ℚ) : ℤ :=
  if q - ⌊q⌋ < 1/2 then ⌊q⌋
  else if (1:ℚ)/2 < q - ⌊q⌋ then ⌊q⌋ + 1
  else if ⌊q⌋ % 2 = 0 then ⌊q⌋ else ⌊q⌋ + 1

/-- One raw CSV row, restricted to the four columns the pipeline reads.
A `none` cell is a pandas `NaN`. -/
structure RawRow where
  category : Option String
  distruProduct : Option String
  batchNumber : Option String
  availableQuantity : CellValue
deriving DecidableEq, Repr

/-- The grouping key of a raw row: its `Category` cell, the derived
`Brand`, and its `Distru Product` / `Distru Batch Number` cells.
`groupby(..., dropna=False)` keys missing cells as values, so `none`
components group together. -/
def rowKey (r : RawRow) : AuditKey :=
  (r.category, extract_brand_from_product r.distruProduct, r.distruProduct, r.batchNumber)

/-- Sum of the coerced `System_Qty` column over the rows of one group
(the rows whose key is `k`). -/
def groupSum (rows : List RawRow) (k : AuditKey) : ℚ :=
  ((rows.filter fun r => decide (rowKey r = k)).map
    fun r => safe_numeric r.availableQuantity 0).sum

/-- One aggregated audit line, as produced by `process_packages_to_audit`. -/
structure AuditLine where
  category : Option String
  brand : String
  product : Option String
  batch : Option String
  systemQty : ℤ
deriving DecidableEq, Repr

/-- The 4-tuple key of an aggregated line. -/
def lineKey (l : AuditLine) : AuditKey :=
  (l.category, l.brand, l.product, l.batch)

/-- `process_packages_to_audit` from `app.py`: derive `Brand` and
`System_Qty`, group by `(Category, Brand, Distru Product, Distru Batch
Number)` with `dropna=False`, sum `System_Qty` per group, round to an
integer, and sort ascending by the group key.  The output is one line
per distinct key, in ascending `keyLE` order. -/
def process_packages_to_audit (rows : List RawRow) : List AuditLine :=
  (List.insertionSort keyLE (rows.map rowKey).dedup).map fun k =>
    { category := k.1
      brand := k.2.1
      product := k.2.2.1
      batch := k.2.2.2
      systemQty := roundHalfEven (groupSum rows k) }

/-! ### Filtering (the filter block of `main`, `app.py` lines 481–487) -/

/-- pandas `Series.isin` on the `Category` column: a missing cell
(`NaN`) is never a member of a list of selected names. -/
def catIsin (c : Option String) (sel : List String) : Bool :=
  match c with
  | some s => sel.contains s
  | none => false

/-- The filter block of `main`: a dimension filters only when its
selection list is non-empty (Python truthiness of a list) and does not
contain the `'All'` sentinel; the two dimensions are applied one after
the other. -/
def applyFilters (audit : List AuditLine)
    (selectedCategories selectedBrands : List String) : List AuditLine :=
  let f1 := if ¬ selectedCategories.isEmpty = true ∧ "All" ∉ selectedCategories
    then audit.filter (fun l => catIsin l.category selectedCategories)
    else audit
  if ¬ selectedBrands.isEmpty = true ∧ "All" ∉ selectedBrands
    then f1.filter (fun l => selectedBrands.contains l.brand)
    else f1

/-! ### Validation (`validate_required_columns`) -/

/-- What the validator reads from an uploaded table: its column names
and whether any axis is empty.  (`validate_required_columns` never
writes to the table; the caller keeps using the original object.) -/
structure DataFrame where
  columns : List String
  rowCount : ℕ
deriving DecidableEq, Repr

/-- The four required columns, in the order the code lists them. -/
def required_cols : List String :=
  ["Distru Product", "Category", "Distru Batch Number", "Available Quantity"]

/-- The required columns absent from the table, in `required_cols` order. -/
def missingCols (df : DataFrame) : List String :=
  required_cols.filter (fun c => ! df.columns.contains c)

/-- `validate_required_columns` from `app.py`: `none` models the `df is
None` case, `df.empty` is true when an axis has length 0. -/
def validate_required_columns (df : Option DataFrame) : Bool × String :=
  match df with
  | none => (false, "DataFrame is empty")
  | some df =>
    if df.rowCount = 0 ∨ df.columns.isEmpty = true then
      (false, "DataFrame is empty")
    else if missingCols df ≠ [] then
      (false, "Missing required columns: " ++ String.intercalate ", " (missingCols df))
    else
      (true, "All required columns present")

/-! ### Document rendering (`generate_audit_pdf`)

The renderer is modelled down to its flowable structure: the ordered
list of elements handed to `doc.build`, paired with the page size.
Colours, spacings and column widths are presentation detail collapsed
into the constructors. -/

/-- The value `datetime.now()` read inside `generate_audit_pdf`, already
formatted (`"%B %d, %Y"` and `"%I:%M %p"`); date formatting itself is
outside the model. -/
structure Timestamp where
  dateText : String
  timeText : String
deriving DecidableEq, Repr

/-- A reportlab flowable, reduced to the structure the spec talks about. -/
inductive Element where
  | title (text : String)
  | spacer
  | paragraph (text : String)
  | catHeader (category : Option String) (itemCount : ℕ)
  | table (data : List (List String))
  | pageBreak
  | sigTable (data : List (List String))
deriving DecidableEq, Repr

/-- Python `str(cell)`: a missing cell prints as `"nan"`. -/
def strCell : Option String → String
  | some s => s
  | none => "nan"

/-- Product cell text: truncated to 57 characters plus `"..."` when
longer than 60 characters. -/
def truncateProduct (p : String) : String :=
  if p.data.length > 60 then String.mk (p.data.take 57) ++ "..." else p

/-- The fixed header row of each per-category table. -/
def headerRow : List String := ["Product", "Batch #", "System\nQty", "Physical\nCount"]

/-- The four cells of one data row: product, batch, system quantity, and
an always-blank physical count. -/
def lineCells (l : AuditLine) : List String :=
  [truncateProduct (strCell l.product), strCell l.batch, toString l.systemQty, ""]

/-- pandas `==` between a column cell and a scalar: `NaN` equals
nothing, not even `NaN`. -/
def pandasEqCell (a b : Option String) : Bool :=
  match a, b with
  | some x, some y => x == y
  | _, _ => false

/-- One per-category section: header with item count, then the table. -/
def sectionElements (df : List AuditLine) (c : Option String) : List Element :=
  let catData := df.filter (fun l => pandasEqCell l.category c)
  [.catHeader c catData.length, .spacer,
   .table (headerRow :: catData.map lineCells), .spacer]

/-- All sections, with a page break after each one except the last. -/
def sectionsElements (df : List AuditLine) : List (Option String) → List Element
  | [] => []
  | [c] => sectionElements df c
  | c :: c' :: rest =>
    sectionElements df c ++ (Element.pageBreak :: sectionsElements df (c' :: rest))

/-- The signature table: `Audited By` and `Verified By` rows, each with
a blank signature line and a blank date line. -/
def sigData : List (List String) :=
  [["Audited By:", String.mk (List.replicate 40 '_'), "Date:", String.mk (List.replicate 20 '_')],
   ["", "", "", ""],
   ["Verified By:", String.mk (List.replicate 40 '_'), "Date:", String.mk (List.replicate 20 '_')]]

/-- The header rendering of one selection: the chosen names joined by
`", "`, or the `all` text when the list is empty or contains `'All'`. -/
def selectionText (selected : List String) (allText : String) : String :=
  if ¬ selected.isEmpty = true ∧ "All" ∉ selected
    then String.intercalate ", " selected
    else allText

/-- First metadata line: date, time and distinct batch count. -/
def metadataLine1 (now : Timestamp) (batches : ℕ) : String :=
  "<b>Date:</b> " ++ now.dateText ++ " &nbsp;&nbsp;&nbsp; <b>Time:</b> " ++ now.timeText
    ++ " &nbsp;&nbsp;&nbsp; <b>Unique Batches:</b> " ++ toString batches

/-- Second metadata line: the category and brand selections. -/
def metadataLine2 (categoryText brandText : String) : String :=
  "<b>Categories:</b> " ++ categoryText ++ " &nbsp;&nbsp;&nbsp; <b>Brands:</b> " ++ brandText

/-- `df['Distru Batch Number'].nunique()`: distinct present batch
values; `nunique` drops `NaN`. -/
def uniqueBatches (df : List AuditLine) : ℕ :=
  ((df.filterMap (·.batch)).dedup).length

/-- `sorted(df['Category'].unique())`.  Python `sorted` raises
`TypeError` when it compares a present (string) category with a missing
one (a `float` `nan`), which happens exactly when both kinds occur;
`none` models that exception. -/
def sortedCategories (df : List AuditLine) : Option (List (Option String)) :=
  let uniq := (df.map (·.category)).dedup
  if uniq.any (·.isSome) && uniq.any (·.isNone) then none
  else some (List.insertionSort optLE uniq)

/-- `generate_audit_pdf` from `app.py`: the page size together with the
element list handed to `doc.build`, or `none` when building the element
list raises.  `now` is the value `datetime.now()` returns during the
call — the function has no timestamp parameter in the source; the clock
reading is made explicit here so that the data flow can be stated. -/
def generate_audit_pdf (df : List AuditLine)
    (selectedCategories selectedBrands : List String)
    (pageSize : String) (now : Timestamp) : Option (String × List Element) :=
  match sortedCategories df with
  | none => none
  | some cats =>
    some (if pageSize = "letter" then "letter" else "a4",
      [Element.title "HAVEN DISTRIBUTION INVENTORY AUDIT WORKSHEET", Element.spacer,
       Element.paragraph (metadataLine1 now (uniqueBatches df)),
       Element.paragraph (metadataLine2 (selectionText selectedCategories "All Categories")
         (selectionText selectedBrands "All Brands")),
       Element.spacer]
      ++ sectionsElements df cats
      ++ [Element.spacer, Element.sigTable sigData])

/-- Number of per-category section headers in an element list. -/
def countCatHeaders (es : List Element) : ℕ :=
  es.countP fun e => match e with | .catHeader _ _ => true | _ => false

/-- Number of hard page breaks in an element list. -/
def countPageBreaks (es : List Element) : ℕ :=
  es.countP fun e => match e with | .pageBreak => true | _ => false

/-- Number of signature tables in an element list. -/
def countSigTables (es : List Element) : ℕ :=
  es.countP fun e => match e with | .sigTable _ => true | _ => false

/-- The category of each section, in document order. -/
def sectionCats (es : List Element) : List (Option String) :=
  es.filterMap fun e => match e with | .catHeader c _ => some c | _ => none

/-! ### Concrete data used by witnesses and counterexamples -/

/-- A one-line aggregated table with a present category. -/
def sampleAudit : List AuditLine :=
  [{ category := some "Vape", brand := "Acme", product := some "Acme - Widget",
     batch := some "B1", systemQty := 5 }]

/-- An aggregated table mixing a missing and a present category. -/
def mixedAudit : List AuditLine :=
  [{ category := none, brand := "Unknown", product := none, batch := none, systemQty := 1 },
   { category := some "Vape", brand := "Acme", product := some "Acme - Widget",
     batch := some "B1", systemQty := 2 }]

/-- An aggregated table with two present categories. -/
def twoCatAudit : List AuditLine :=
  [{ category := some "Vape", brand := "Acme", product := some "Acme - Widget",
     batch := some "B1", systemQty := 2 },
   { category := some "Flower", brand := "Acme", product := some "Acme - Bud",
     batch := some "B2", systemQty := 3 }]

/-- One raw row with a negative quantity. -/
def negRows : List RawRow :=
  [{ category := some "Vape", distruProduct := some "Acme - Widget",
     batchNumber := some "B1", availableQuantity := .str "-3" }]

/-- One raw row whose quantity sums to exactly one half. -/
def halfRows : List RawRow :=
  [{ category := some "Vape", distruProduct := some "Acme - Widget",
     batchNumber := some "B1", availableQuantity := .str "0.5" }]

/-- Two raw rows sharing a key whose category and batch are missing. -/
def missRows : List RawRow :=
  [{ category := none, distruProduct := some "Acme - Widget",
     batchNumber := none, availableQuantity := .str "2" },
   { category := none, distruProduct := some "Acme - Widget",
     batchNumber := none, availableQuantity := .str "3" }]

/-- Two clock readings one minute apart. -/
def ts1 : Timestamp := { dateText := "January 01, 2026", timeText := "09:00 AM" }

/-- See `ts1`. -/
def ts2 : Timestamp := { dateText := "January 01, 2026", timeText := "09:01 AM" }

/-! ### Order-theoretic properties of the sorting keys -/

theorem optLT_asymm : ∀ (a b : Option String), optLT a b → ¬ optLT b a
  | some _, some _, h => lt_asymm h
  | some _, none, _ => fun h' => h'
  | none, none, h => h.elim
  | none, some _, h => h.elim

theorem optLT_trichotomy : ∀ (a b : Option String), optLT a b ∨ a = b ∨ optLT b a
  | some x, some y => by
    rcases lt_trichotomy x y with h | h | h
    · exact Or.inl h
    · exact Or.inr (Or.inl (by rw [h]))
    · exact Or.inr (Or.inr h)
  | some _, none => Or.inl trivial
  | none, some _ => Or.inr (Or.inr trivial)
  | none, none => Or.inr (Or.inl rfl)

theorem optLT_trans : ∀ (a b c : Option String), optLT a b → optLT b c → optLT a c
  | some _, some _, some _, h₁, h₂ => lt_trans h₁ h₂
  | some _, some _, none, _, _ => trivial
  | some _, none, none, _, h₂ => h₂.elim
  | some _, none, some _, _, h₂ => h₂.elim
  | none, _, _, h₁, _ => h₁.elim

theorem optLE_total : ∀ (a b : Option String), optLE a b ∨ optLE b a
  | some x, some y => le_total x y
  | some _, none => Or.inl trivial
  | none, some _ => Or.inr trivial
  | none, none => Or.inl trivial

theorem optLE_trans : ∀ (a b c : Option String), optLE a b → optLE b c → optLE a c
  | some _, some _, some _, h₁, h₂ => le_trans h₁ h₂
  | some _, some _, none, _, _ => trivial
  | some _, none, none, _, _ => trivial
  | none, some _, none, _, _ => trivial
  | none, none, none, _, _ => trivial
  | some _, none, some _, _, h₂ => h₂.elim
  | none, none, some _, _, h₂ => h₂.elim
  | none, some _, some _, h₁, _ => h₁.elim

theorem optLE_antisymm : ∀ (a b : Option String), optLE a b → optLE b a → a = b
  | some x, some y, h₁, h₂ => by rw [le_antisymm h₁ h₂]
  | some _, none, _, h₂ => h₂.elim
  | none, some _, h₁, _ => h₁.elim
  | none, none, _, _ => rfl

theorem lexLE_total {α β : Type} {lt : α → α → Prop} {r : β → β → Prop}
    (hlt : ∀ x y, lt x y ∨ x = y ∨ lt y x) (hr : ∀ x y, r x y ∨ r y x) :
    ∀ a b, lexLE lt r a b ∨ lexLE lt r b a := by
  intro a b
  rcases hlt a.1 b.1 with h | h | h
  · exact Or.inl (Or.inl h)
  · rcases hr a.2 b.2 with h' | h'
    · exact Or.inl (Or.inr ⟨h, h'⟩)
    · exact Or.inr (Or.inr ⟨h.symm, h'⟩)
  · exact Or.inr (Or.inl h)

theorem lexLE_trans {α β : Type} {lt : α → α → Prop} {r : β → β → Prop}
    (hlt : ∀ x y z, lt x y → lt y z → lt x z)
    (hr : ∀ x y z, r x y → r y z → r x z) :
    ∀ a b c, lexLE lt r a b → lexLE lt r b c → lexLE lt r a c := by
  rintro a b c (h₁ | ⟨e₁, h₁⟩) (h₂ | ⟨e₂, h₂⟩)
  · exact Or.inl (hlt _ _ _ h₁ h₂)
  · exact Or.inl (e₂ ▸ h₁)
  · exact Or.inl (e₁ ▸ h₂)
  · exact Or.inr ⟨e₁.trans e₂, hr _ _ _ h₁ h₂⟩

theorem lexLE_antisymm {α β : Type} {lt : α → α → Prop} {r : β → β → Prop}
    (hlt : ∀ x y, lt x y → ¬ lt y x)
    (hr : ∀ x y, r x y → r y x → x = y) :
    ∀ a b, lexLE lt r a b → lexLE lt r b a → a = b := by
  rintro ⟨a₁, a₂⟩ ⟨b₁, b₂⟩ (h₁ | ⟨e₁, h₁⟩) (h₂ | ⟨e₂, h₂⟩)
  · exact absurd h₂ (hlt _ _ h₁)
  · exact absurd (e₂ ▸ h₁) (fun h => hlt _ _ h h)
  · exact absurd (e₁ ▸ h₂) (fun h => hlt _ _ h h)
  · exact Prod.ext e₁ (hr _ _ h₁ h₂)

theorem keyLE_total : ∀ a b, keyLE a b ∨ keyLE b a :=
  lexLE_total optLT_trichotomy
    (lexLE_total (fun x y => lt_trichotomy x y)
      (lexLE_total optLT_trichotomy optLE_total))

theorem keyLE_trans : ∀ a b c, keyLE a b → keyLE b c → keyLE a c :=
  lexLE_trans optLT_trans
    (lexLE_trans (fun _ _ _ h₁ h₂ => lt_trans h₁ h₂)
      (lexLE_trans optLT_trans optLE_trans))

theorem keyLE_antisymm : ∀ a b, keyLE a b → keyLE b a → a = b :=
  lexLE_antisymm optLT_asymm
    (lexLE_antisymm (fun _ _ h => lt_asymm h)
      (lexLE_antisymm optLT_asymm optLE_antisymm))

/-! ### Lemmas about the aggregation -/

theorem lineKey_process (rows : List RawRow) :
    (process_packages_to_audit rows).map lineKey
      = List.insertionSort keyLE (rows.map rowKey).dedup := by
  unfold process_packages_to_audit
  rw [List.map_map]
  have h : (lineKey ∘ fun k : AuditKey =>
      ({ category := k.1, brand := k.2.1, product := k.2.2.1, batch := k.2.2.2,
         systemQty := roundHalfEven (groupSum rows k) } : AuditLine)) = id :=
    funext fun k => rfl
  rw [h, List.map_id]

theorem process_keys_nodup (rows : List RawRow) :
    ((process_packages_to_audit rows).map lineKey).Nodup := by
  rw [lineKey_process]
  exact ((List.perm_insertionSort keyLE _).nodup_iff).mpr (List.nodup_dedup _)

theorem process_keys_sorted (rows : List RawRow) :
    List.Sorted keyLE ((process_packages_to_audit rows).map lineKey) := by
  haveI : IsTotal AuditKey keyLE := ⟨keyLE_total⟩
  haveI : IsTrans AuditKey keyLE := ⟨keyLE_trans⟩
  rw [lineKey_process]
  exact List.sorted_insertionSort keyLE _

theorem process_systemQty (rows : List RawRow) :
    ∀ l ∈ process_packages_to_audit rows,
      l.systemQty = roundHalfEven (groupSum rows (lineKey l)) := by
  intro l hl
  unfold process_packages_to_audit at hl
  rcases List.mem_map.mp hl with ⟨k, _, rfl⟩
  rfl

theorem process_mem_key (rows : List RawRow) :
    ∀ r ∈ rows, rowKey r ∈ (process_packages_to_audit rows).map lineKey := by
  intro r hr
  rw [lineKey_process]
  exact (List.mem_insertionSort keyLE).mpr
    (List.mem_dedup.mpr (List.mem_map_of_mem rowKey hr))

theorem groupSum_perm {rows₁ rows₂ : List RawRow} (h : rows₁.Perm rows₂)
    (k : AuditKey) : groupSum rows₁ k = groupSum rows₂ k :=
  ((h.filter _).map _).sum_eq

theorem process_perm {rows₁ rows₂ : List RawRow} (h : rows₁.Perm rows₂) :
    process_packages_to_audit rows₁ = process_packages_to_audit rows₂ := by
  haveI : IsTotal AuditKey keyLE := ⟨keyLE_total⟩
  haveI : IsTrans AuditKey keyLE := ⟨keyLE_trans⟩
  haveI : IsAntisymm AuditKey keyLE := ⟨keyLE_antisymm⟩
  have hkeys : List.insertionSort keyLE (rows₁.map rowKey).dedup
      = List.insertionSort keyLE (rows₂.map rowKey).dedup := by
    refine List.eq_of_perm_of_sorted ?_
      (List.sorted_insertionSort keyLE _) (List.sorted_insertionSort keyLE _)
    exact (List.perm_insertionSort keyLE _).trans
      (((h.map rowKey).dedup).trans (List.perm_insertionSort keyLE _).symm)
  unfold process_packages_to_audit
  rw [hkeys]
  exact List.map_congr_left fun k _ => by rw [groupSum_perm h]

theorem roundHalfEven_nonneg {q : ℚ} (hq : 0 ≤ q) : 0 ≤ roundHalfEven q := by
  have hf : 0 ≤ ⌊q⌋ := Int.floor_nonneg.mpr hq
  unfold roundHalfEven
  split_ifs <;> omega

theorem roundHalfEven_ge_floor (q : ℚ) : ⌊q⌋ ≤ roundHalfEven q := by
  unfold roundHalfEven
  split_ifs <;> omega

theorem roundHalfEven_half (n : ℤ) :
    roundHalfEven ((n : ℚ) + 1/2) = if n % 2 = 0 then n else n + 1 := by
  have hfloor : ⌊(n : ℚ) + 1/2⌋ = n := by
    rw [Int.floor_int_add]
    norm_num
  have hfrac : ((n : ℚ) + 1/2) - (⌊(n : ℚ) + 1/2⌋ : ℚ) = 1/2 := by
    rw [hfloor]; ring
  unfold roundHalfEven
  rw [hfrac, hfloor]
  norm_num

theorem groupSum_nonneg {rows : List RawRow}
    (h : ∀ r ∈ rows, 0 ≤ safe_numeric r.availableQuantity 0) (k : AuditKey) :
    0 ≤ groupSum rows k := by
  refine List.sum_nonneg ?_
  intro q hq
  rcases List.mem_map.mp hq with ⟨r, hr, rfl⟩
  exact h r (List.mem_filter.mp hr).1

/-! ### Section structure of the rendered document -/

theorem getLast?_cons_append_pair {α : Type} (x : α) (l : List α) (a b : α) :
    (x :: (l ++ [a, b])).getLast? = some b := by
  rw [show x :: (l ++ [a, b]) = (x :: l ++ [a]) ++ [b] by simp]
  exact List.getLast?_concat _

theorem sectionsElements_catHeaders (df : List AuditLine) :
    ∀ cs, countCatHeaders (sectionsElements df cs) = cs.length
  | [] => rfl
  | [c] => by
    simp [sectionsElements, sectionElements, countCatHeaders, List.countP_cons]
  | c :: c' :: rest => by
    have ih := sectionsElements_catHeaders df (c' :: rest)
    simp only [countCatHeaders] at ih ⊢
    simp [sectionsElements, sectionElements, List.countP_cons, List.countP_append, ih]

theorem sectionsElements_pageBreaks (df : List AuditLine) :
    ∀ cs, countPageBreaks (sectionsElements df cs) = cs.length - 1
  | [] => rfl
  | [c] => by
    simp [sectionsElements, sectionElements, countPageBreaks, List.countP_cons]
  | c :: c' :: rest => by
    have ih := sectionsElements_pageBreaks df (c' :: rest)
    simp only [countPageBreaks] at ih ⊢
    simp [sectionsElements, sectionElements, List.countP_cons, List.countP_append, ih]

theorem sectionsElements_sigTables (df : List AuditLine) :
    ∀ cs, countSigTables (sectionsElements df cs) = 0
  | [] => rfl
  | [c] => by
    simp [sectionsElements, sectionElements, countSigTables, List.countP_cons]
  | c :: c' :: rest => by
    have ih := sectionsElements_sigTables df (c' :: rest)
    simp only [countSigTables] at ih ⊢
    simp [sectionsElements, sectionElements, List.countP_cons, List.countP_append, ih]

theorem sectionsElements_cats (df : List AuditLine) :
    ∀ cs, sectionCats (sectionsElements df cs) = cs
  | [] => rfl
  | [c] => by
    simp [sectionsElements, sectionElements, sectionCats]
  | c :: c' :: rest => by
    have ih := sectionsElements_cats df (c' :: rest)
    simp only [sectionCats] at ih ⊢
    simp [sectionsElements, sectionElements, List.filterMap_append, ih]

/-! ### Claim theorems -/

/-- Claim C6: brand extraction is total and maps the spec's test vector
as documented — a delimited name yields the trimmed prefix, and a
missing name, absent delimiter, or empty trimmed prefix yield
`"Unknown"`; the result is always a non-empty string. -/
theorem extract_brand_spec :
    extract_brand_from_product (some "Acme - Widget") = "Acme"
    ∧ extract_brand_from_product (some "NoDelimiterHere") = "Unknown"
    ∧ extract_brand_from_product none = "Unknown"
    ∧ extract_brand_from_product (some "") = "Unknown"
    ∧ extract_brand_from_product (some " - OnlySuffix") = "Unknown"
    ∧ ∀ p, 1 ≤ (extract_brand_from_product p).length := by
  refine ⟨by decide, by decide, by decide, by decide, by decide, ?_⟩
  intro p
  cases p with
  | none => decide
  | some s =>
    simp only [extract_brand_from_product]
    split_ifs with h1 h2
    · decide
    · exact List.length_pos.mpr h2
    · decide

/-- Claim C7: quantity coercion is total — a parsable string is
converted, a missing value yields the caller-supplied default, and so
does any string that fails to convert. -/
theorem safe_numeric_spec :
    safe_numeric (.str "12") 0 = 12
    ∧ safe_numeric (.str "abc") 0 = 0
    ∧ (∀ d, safe_numeric .na d = d)
    ∧ ∀ s d, parseDecimal s = none → safe_numeric (.str s) d = d := by
  refine ⟨by with_unfolding_all decide, by with_unfolding_all decide, fun d => rfl, ?_⟩
  intro s d h
  simp [safe_numeric, h]

/-- Witness for `safe_numeric_spec`: `"abc"` fails to parse and the
coercion returns the supplied default `7`. -/
theorem safe_numeric_spec_witness :
    parseDecimal "abc" = none ∧ safe_numeric (.str "abc") 7 = 7 :=
  ⟨by decide, safe_numeric_spec.2.2.2 "abc" 7 (by decide)⟩

/-- Claim C1, counterexample: with an explicit empty category selection
(and `All` brands) the filter returns the full one-line table, not zero
rows — an empty Python list is falsy, so the category filter is skipped
entirely. -/
theorem applyFilters_empty_counterexample :
    ¬ applyFilters sampleAudit [] ["All"] = [] := by decide

/-- Claim C1 as amended: an empty selection behaves like the `All`
sentinel (no filtering on that dimension) rather than selecting zero
rows; `All` on both dimensions returns the table unchanged; explicit
non-empty sentinel-free selections on both dimensions yield the
conjunction of the per-dimension membership tests. -/
theorem applyFilters_truth_table (audit : List AuditLine)
    (selectedCategories selectedBrands : List String) :
    ((selectedCategories = [] ∨ "All" ∈ selectedCategories) →
     (selectedBrands = [] ∨ "All" ∈ selectedBrands) →
      applyFilters audit selectedCategories selectedBrands = audit)
    ∧ (selectedCategories ≠ [] → "All" ∉ selectedCategories →
       selectedBrands ≠ [] → "All" ∉ selectedBrands →
        applyFilters audit selectedCategories selectedBrands
          = audit.filter fun l =>
              catIsin l.category selectedCategories
                && selectedBrands.contains l.brand) := by
  constructor
  · intro hc hb
    have hc' : ¬(¬ selectedCategories.isEmpty = true ∧ "All" ∉ selectedCategories) := by
      rcases hc with h | h
      · simp [h]
      · exact fun hx => hx.2 h
    have hb' : ¬(¬ selectedBrands.isEmpty = true ∧ "All" ∉ selectedBrands) := by
      rcases hb with h | h
      · simp [h]
      · exact fun hx => hx.2 h
    simp only [applyFilters, if_neg hc', if_neg hb']
  · intro hc1 hc2 hb1 hb2
    have hc' : ¬ selectedCategories.isEmpty = true ∧ "All" ∉ selectedCategories :=
      ⟨by simpa using hc1, hc2⟩
    have hb' : ¬ selectedBrands.isEmpty = true ∧ "All" ∉ selectedBrands :=
      ⟨by simpa using hb1, hb2⟩
    simp only [applyFilters, if_pos hc', if_pos hb', List.filter_filter]
    exact List.filter_congr fun l _ => Bool.and_comm _ _

/-- Witness for `applyFilters_truth_table`: the empty category selection
passes the sample table through, and explicit selections keep exactly
the matching rows. -/
theorem applyFilters_truth_table_witness :
    applyFilters sampleAudit [] ["All"] = sampleAudit
    ∧ applyFilters sampleAudit ["Vape"] ["Acme"]
        = sampleAudit.filter fun l =>
            catIsin l.category ["Vape"] && (["Acme"].contains l.brand) :=
  ⟨(applyFilters_truth_table sampleAudit [] ["All"]).1 (Or.inl rfl) (Or.inr (by decide)),
   (applyFilters_truth_table sampleAudit ["Vape"] ["Acme"]).2
     (by decide) (by decide) (by decide) (by decide)⟩

/-- Claim C3, counterexample: a raw row with quantity `"-3"` aggregates
to an `AuditLine` whose `SystemQty` is negative — the pipeline never
clamps or rejects negative quantities. -/
theorem process_negative_counterexample :
    ¬ ∀ l ∈ process_packages_to_audit negRows, 0 ≤ l.systemQty := by
  with_unfolding_all decide

/-- Claim C3 as amended: every `SystemQty` is an integer by
construction, and it is non-negative whenever every coerced input
quantity is non-negative (which holds for all datasets whose
`Available Quantity` values are non-negative numbers, unparsable text,
or missing); a negative input quantity flows through to a negative
`SystemQty`. -/
theorem process_systemQty_nonneg (rows : List RawRow)
    (h : ∀ r ∈ rows, 0 ≤ safe_numeric r.availableQuantity 0) :
    ∀ l ∈ process_packages_to_audit rows, 0 ≤ l.systemQty := by
  intro l hl
  rw [process_systemQty rows l hl]
  exact roundHalfEven_nonneg (groupSum_nonneg h _)

/-- Witness for `process_systemQty_nonneg` at the two-row
missing-category dataset. -/
theorem process_systemQty_nonneg_witness :
    0 ≤ (AuditLine.mk none "Acme" (some "Acme - Widget") none 5).systemQty :=
  process_systemQty_nonneg missRows (by with_unfolding_all decide) _
    (by with_unfolding_all decide)

/-- Claim C10: the rounding applied to each group's summed quantity is
round-half-to-even — when the sum is exactly `n + 1/2` the resulting
`SystemQty` is even and is one of the two neighbouring integers, hence
the even neighbour. -/
theorem process_half_rounds_to_even (rows : List RawRow) (l : AuditLine) (n : ℤ)
    (hl : l ∈ process_packages_to_audit rows)
    (hsum : groupSum rows (lineKey l) = (n : ℚ) + 1/2) :
    l.systemQty % 2 = 0 ∧ (l.systemQty = n ∨ l.systemQty = n + 1) := by
  rw [process_systemQty rows l hl, hsum, roundHalfEven_half]
  split_ifs with h
  · exact ⟨h, Or.inl rfl⟩
  · exact ⟨by omega, Or.inr rfl⟩

/-- Witness for `process_half_rounds_to_even`: a single row of quantity
`"0.5"` sums to `0 + 1/2` and is rounded to `0`, the even neighbour. -/
theorem process_half_rounds_to_even_witness :
    (AuditLine.mk (some "Vape") "Acme" (some "Acme - Widget") (some "B1") 0).systemQty % 2 = 0
    ∧ ((AuditLine.mk (some "Vape") "Acme" (some "Acme - Widget") (some "B1") 0).systemQty = 0
       ∨ (AuditLine.mk (some "Vape") "Acme" (some "Acme - Widget") (some "B1") 0).systemQty
           = 0 + 1) :=
  process_half_rounds_to_even halfRows _ 0 (by with_unfolding_all decide)
    (by with_unfolding_all decide)

/-- Claim C4: the aggregated table's 4-tuple keys are pairwise distinct,
each line's `SystemQty` is the (rounded) sum of the coerced quantities
of exactly the input rows sharing its key, and every input row's key —
missing components included — appears among the output keys (no row is
dropped). -/
theorem process_grouping_invariant (rows : List RawRow) :
    ((process_packages_to_audit rows).map lineKey).Nodup
    ∧ (∀ l ∈ process_packages_to_audit rows,
        l.systemQty = roundHalfEven (groupSum rows (lineKey l)))
    ∧ ∀ r ∈ rows, rowKey r ∈ (process_packages_to_audit rows).map lineKey :=
  ⟨process_keys_nodup rows, process_systemQty rows, process_mem_key rows⟩

/-- Witness for `process_grouping_invariant`: two rows with a missing
category and batch share one key; their quantities `2` and `3` sum to a
single line with `SystemQty` `5`, and the key is not dropped. -/
theorem process_grouping_invariant_witness :
    (AuditLine.mk none "Acme" (some "Acme - Widget") none 5).systemQty
        = roundHalfEven (groupSum missRows
            (lineKey (AuditLine.mk none "Acme" (some "Acme - Widget") none 5)))
    ∧ rowKey { category := none, distruProduct := some "Acme - Widget",
               batchNumber := none, availableQuantity := .str "2" }
        ∈ (process_packages_to_audit missRows).map lineKey :=
  ⟨(process_grouping_invariant missRows).2.1 _ (by with_unfolding_all decide),
   (process_grouping_invariant missRows).2.2 _ (by with_unfolding_all decide)⟩

/-- Claim C5: the aggregated table is sorted ascending by
`(Category, Brand, ProductName, BatchNumber)` under case-sensitive
lexicographic comparison (missing cells last), and aggregation is
invariant under permutation of the input rows. -/
theorem process_sorted_deterministic :
    (∀ rows, List.Sorted keyLE ((process_packages_to_audit rows).map lineKey))
    ∧ ∀ rows₁ rows₂, rows₁.Perm rows₂ →
        process_packages_to_audit rows₁ = process_packages_to_audit rows₂ :=
  ⟨process_keys_sorted, fun _ _ h => process_perm h⟩

/-- Witness for `process_sorted_deterministic`: reversing the two-row
dataset leaves the aggregated table unchanged. -/
theorem process_sorted_deterministic_witness :
    process_packages_to_audit missRows.reverse = process_packages_to_audit missRows :=
  process_sorted_deterministic.2 _ _ missRows.reverse_perm

/-- Claim C9: validation succeeds exactly when the table is non-empty
and no required column is missing; an empty table reports the empty
message, missing columns are reported by listing precisely the absent
required columns, and a `None` table is rejected.  The validator only
returns this verdict — the caller's table is not modified, so no column
is ever synthesized and no incomplete table is produced. -/
theorem validate_spec (df : DataFrame) :
    ((validate_required_columns (some df)).1 = true
      ↔ df.rowCount ≠ 0 ∧ df.columns.isEmpty = false ∧ missingCols df = [])
    ∧ ((df.rowCount = 0 ∨ df.columns.isEmpty = true) →
        (validate_required_columns (some df)).2 = "DataFrame is empty")
    ∧ (df.rowCount ≠ 0 → df.columns.isEmpty = false → missingCols df ≠ [] →
        (validate_required_columns (some df)).2
          = "Missing required columns: " ++ String.intercalate ", " (missingCols df))
    ∧ (df.rowCount ≠ 0 → df.columns.isEmpty = false → missingCols df = [] →
        (validate_required_columns (some df)).2 = "All required columns present")
    ∧ (validate_required_columns none).1 = false := by
  unfold validate_required_columns
  dsimp only
  split_ifs with h1 h2
  · refine ⟨?_, fun _ => rfl, ?_, ?_, rfl⟩
    · simp only [Bool.false_eq_true, false_iff]
      rintro ⟨hr, hcols, -⟩
      rcases h1 with h | h
      · exact hr h
      · simp [h] at hcols
    · intro hr hcols _
      rcases h1 with h | h
      · exact (hr h).elim
      · simp [h] at hcols
    · intro hr hcols _
      rcases h1 with h | h
      · exact (hr h).elim
      · simp [h] at hcols
  · refine ⟨?_, fun h => (h1 h).elim, fun _ _ _ => rfl, ?_, rfl⟩
    · simp only [Bool.false_eq_true, false_iff]
      rintro ⟨-, -, hm⟩
      exact h2 hm
    · intro _ _ hm
      exact absurd hm h2
  · refine ⟨?_, fun h => (h1 h).elim, ?_, fun _ _ _ => rfl, rfl⟩
    · simp only [true_iff]
      push_neg at h1
      refine ⟨h1.1, ?_, not_not.mp h2⟩
      cases hcols : df.columns.isEmpty
      · rfl
      · exact (h1.2 hcols).elim
    · intro _ _ hm
      exact absurd (not_not.mp h2) hm

/-- Witness for `validate_spec`: a table with only a `Category` column
reports the three absent required columns; an axis-empty table reports
the empty message; a complete table passes. -/
theorem validate_spec_witness :
    (validate_required_columns (some (DataFrame.mk ["Category"] 3))).2
      = "Missing required columns: "
        ++ String.intercalate ", " (missingCols (DataFrame.mk ["Category"] 3))
    ∧ (validate_required_columns (some (DataFrame.mk [] 0))).2 = "DataFrame is empty"
    ∧ (validate_required_columns (some (DataFrame.mk required_cols 2))).2
        = "All required columns present" :=
  ⟨(validate_spec _).2.2.1 (by decide) (by decide) (by decide),
   (validate_spec _).2.1 (Or.inl rfl),
   (validate_spec _).2.2.2.1 (by decide) (by decide) (by decide)⟩

/-- Claim C2, counterexample: `generate_audit_pdf` has no timestamp
parameter — it reads `datetime.now()` itself.  Two renders with
identical table, selections and page size but different clock readings
produce different documents, so the output is not a function of the
inputs the claim lists. -/
theorem render_timestamp_counterexample :
    generate_audit_pdf sampleAudit ["All"] ["All"] "letter" ts1
      ≠ generate_audit_pdf sampleAudit ["All"] ["All"] "letter" ts2 := by decide

/-- Claim C2 as amended: the renderer reads the current time internally
and embeds it in the metadata block (element index 2); apart from that
one timestamp line the output is a pure function of (filtered table,
selections, page size) — and for a fixed clock reading the render is
fully deterministic. -/
theorem render_clock_dataflow (df : List AuditLine)
    (selectedCategories selectedBrands : List String) (pageSize : String)
    (t₁ t₂ : Timestamp) :
    (generate_audit_pdf df selectedCategories selectedBrands pageSize t₁).map
        (fun d => (d.1, d.2.eraseIdx 2))
      = (generate_audit_pdf df selectedCategories selectedBrands pageSize t₂).map
        (fun d => (d.1, d.2.eraseIdx 2))
    ∧ ∀ doc, generate_audit_pdf df selectedCategories selectedBrands pageSize t₁ = some doc →
        doc.2.get? 2 = some (.paragraph (metadataLine1 t₁ (uniqueBatches df))) := by
  unfold generate_audit_pdf
  cases sortedCategories df with
  | none => exact ⟨rfl, fun doc h => by cases h⟩
  | some cats =>
    refine ⟨rfl, ?_⟩
    intro doc h
    cases h
    rfl

/-- Witness for `render_clock_dataflow`: on the sample table the two
renders agree after erasing the timestamp line, and the rendered
document carries the clock reading at element index 2. -/
theorem render_clock_dataflow_witness :
    (generate_audit_pdf sampleAudit ["All"] ["All"] "letter" ts1).map
        (fun d => (d.1, d.2.eraseIdx 2))
      = (generate_audit_pdf sampleAudit ["All"] ["All"] "letter" ts2).map
        (fun d => (d.1, d.2.eraseIdx 2))
    ∧ ((generate_audit_pdf sampleAudit ["All"] ["All"] "letter" ts1).getD
          ("", [])).2.get? 2
        = some (.paragraph (metadataLine1 ts1 (uniqueBatches sampleAudit))) :=
  ⟨(render_clock_dataflow sampleAudit ["All"] ["All"] "letter" ts1 ts2).1,
   (render_clock_dataflow sampleAudit ["All"] ["All"] "letter" ts1 ts2).2
     ((generate_audit_pdf sampleAudit ["All"] ["All"] "letter" ts1).getD ("", []))
     (by decide)⟩

/-- Claim C8, counterexample: a filtered table that mixes a missing and
a present category spans two distinct `Category` values, yet rendering
produces no document at all — `sorted()` compares the `nan` with a
string and raises `TypeError` — so no table yields its two sections. -/
theorem render_mixed_category_counterexample :
    generate_audit_pdf mixedAudit ["All"] ["All"] "letter" ts1 = none
    ∧ ((mixedAudit.map (·.category)).dedup).length = 2 := by
  exact ⟨by decide, by decide⟩

/-- Claim C8 as amended: whenever the filtered table does not mix
missing and present categories (otherwise rendering fails with a type
error), the document contains exactly one section header per distinct
category, a page break after every section except the last (zero when
there is one section), and exactly one signature table, which is the
final element; the section categories are exactly the distinct
categories in ascending order, and the signature block pairs the
`Audited By` and `Verified By` lines each with a date field. -/
theorem render_sections_structure (df : List AuditLine)
    (selectedCategories selectedBrands : List String) (pageSize : String)
    (now : Timestamp)
    (h : ((df.map (·.category)).dedup.any (·.isSome)
          && (df.map (·.category)).dedup.any (·.isNone)) = false) :
    (generate_audit_pdf df selectedCategories selectedBrands pageSize now).map
        (fun d => countCatHeaders d.2) = some ((df.map (·.category)).dedup).length
    ∧ (generate_audit_pdf df selectedCategories selectedBrands pageSize now).map
        (fun d => countPageBreaks d.2) = some (((df.map (·.category)).dedup).length - 1)
    ∧ (generate_audit_pdf df selectedCategories selectedBrands pageSize now).map
        (fun d => countSigTables d.2) = some 1
    ∧ (generate_audit_pdf df selectedCategories selectedBrands pageSize now).map
        (fun d => d.2.getLast?) = some (some (.sigTable sigData))
    ∧ (generate_audit_pdf df selectedCategories selectedBrands pageSize now).map
        (fun d => sectionCats d.2)
        = some (List.insertionSort optLE (df.map (·.category)).dedup)
    ∧ List.Sorted optLE (List.insertionSort optLE (df.map (·.category)).dedup)
    ∧ (List.insertionSort optLE (df.map (·.category)).dedup).Perm
        ((df.map (·.category)).dedup)
    ∧ "Audited By:" ∈ sigData.headD [] ∧ "Date:" ∈ sigData.headD []
    ∧ "Verified By:" ∈ sigData.getLastD [] ∧ "Date:" ∈ sigData.getLastD [] := by
  haveI : IsTotal (Option String) optLE := ⟨optLE_total⟩
  haveI : IsTrans (Option String) optLE := ⟨optLE_trans⟩
  have hsort : sortedCategories df
      = some (List.insertionSort optLE (df.map (·.category)).dedup) := by
    unfold sortedCategories
    rw [if_neg (by simp [h])]
  unfold generate_audit_pdf
  rw [hsort]
  have hlen : (List.insertionSort optLE (df.map (·.category)).dedup).length
      = ((df.map (·.category)).dedup).length :=
    (List.perm_insertionSort optLE _).length_eq
  refine ⟨?_, ?_, ?_, ?_, ?_,
    List.sorted_insertionSort optLE _, List.perm_insertionSort optLE _,
    by decide, by decide, by decide, by decide⟩
  · have hs := sectionsElements_catHeaders df
      (List.insertionSort optLE (df.map (·.category)).dedup)
    simp only [countCatHeaders] at hs ⊢
    simp [List.countP_append, List.countP_cons, hs, hlen]
  · have hs := sectionsElements_pageBreaks df
      (List.insertionSort optLE (df.map (·.category)).dedup)
    simp only [countPageBreaks] at hs ⊢
    simp [List.countP_append, List.countP_cons, hs, hlen]
  · have hs := sectionsElements_sigTables df
      (List.insertionSort optLE (df.map (·.category)).dedup)
    simp only [countSigTables] at hs ⊢
    simp [List.countP_append, List.countP_cons, hs]
  · simp [getLast?_cons_append_pair]
  · have hs := sectionsElements_cats df
      (List.insertionSort optLE (df.map (·.category)).dedup)
    simp only [sectionCats] at hs ⊢
    simp [List.filterMap_append, hs]

/-- Witness for `render_sections_structure`: a two-category table (no
missing categories) renders with two section headers, one page break
and one signature table. -/
theorem render_sections_structure_witness :
    (generate_audit_pdf twoCatAudit ["All"] ["All"] "letter" ts1).map
        (fun d => countCatHeaders d.2)
      = some ((twoCatAudit.map (·.category)).dedup).length
    ∧ (generate_audit_pdf twoCatAudit ["All"] ["All"] "letter" ts1).map
        (fun d => countPageBreaks d.2)
      = some (((twoCatAudit.map (·.category)).dedup).length - 1)
    ∧ (generate_audit_pdf twoCatAudit ["All"] ["All"] "letter" ts1).map
        (fun d => countSigTables d.2) = some 1 :=
  ⟨(render_sections_structure twoCatAudit ["All"] ["All"] "letter" ts1 (by decide)).1,
   (render_sections_structure twoCatAudit ["All"] ["All"] "letter" ts1 (by decide)).2.1,
   (render_sections_structure twoCatAudit ["All"] ["All"] "letter" ts1 (by decide)).2.2.1⟩
